import Mathlib

/-!
Verification of the Smart Movie Creator pipeline orchestrator.

This file shallowly embeds the data model and the state-mutating operations of
the application (the React component in `src/unnamed/part_000`, the script
analyzer guard in `src/services/geminiService.ts`) as executable Lean
definitions, and proves properties about them.

Modelling conventions:
- React `useState` cells are collected in an explicit `RunState` record; a
  `setX` call becomes a record update, applied immediately (the standard
  sequential reading of the component's state updates).
- `async` collaborator calls are modelled as functions returning
  `Except String α`; a promise rejection is the `.error` case carrying the
  error message.  `Promise.all` over a list is fail-fast `mapM`-style
  sequencing: it succeeds only when every element succeeds.
- Each operation's synchronous prefix (the mutations before the first
  `await`) is, where a claim needs it, embedded as a separate `...Start`
  function so that the document state visible between invocation and
  collaborator completion can be inspected.
- JavaScript string truthiness (`if (s)`) becomes `s ≠ ""`; `undefined`
  optional values become `Option`.
-/

/-- From src/types.ts: QualityMode = 'standard' | 'high'. -/
inductive QualityMode where
  | standard
  | high
deriving DecidableEq, Repr

/-- From src/types.ts: enum AppState. -/
inductive AppState where
  | SCRIPT_UPLOAD
  | PROCESSING
  | REVIEW
  | COMPLETE
  | ERROR
deriving DecidableEq, Repr

/-- From src/types.ts: enum ProcessingStage. -/
inductive ProcessingStage where
  | ANALYZING_SCRIPT
  | CASTING_VOICE_ACTORS
  | GENERATING_VOICE_CLIPS
  | ANALYZING_STYLE
  | GENERATING_CHARACTERS
  | GENERATING_STORYBOARD
  | RENDERING_VIDEO
deriving DecidableEq, Repr

/-- From src/types.ts: interface VoiceActor. -/
structure VoiceActor where
  name : String
  vocalStyle : String
deriving DecidableEq, Repr

/-- From src/types.ts: interface Character. -/
structure Character where
  id : String
  name : String
  description : String
  imageUrl : String
  voiceActor : Option VoiceActor
  voiceLine : Option String
deriving DecidableEq, Repr

/-- From src/types.ts: interface Scene.  `sceneNumber` is a JS number holding
an integer, modelled as `Int`. -/
structure Scene where
  id : String
  sceneNumber : Int
  description : String
  storyboardVideoUrl : String
deriving DecidableEq, Repr

/-- From src/types.ts: interface SceneSuggestion. -/
structure SceneSuggestion where
  id : String
  title : String
  reasoning : String
  sceneDescription : String
  suggestedLocation : Int
deriving DecidableEq, Repr

/-- From src/types.ts: interface ImagePart (the inlineData payload). -/
structure ImagePart where
  data : String
  mimeType : String
deriving DecidableEq, Repr

/-- From src/types.ts: interface Movie. -/
structure Movie where
  title : String
  logline : String
  script : String
  characters : List Character
  scenes : List Scene
  videoUrl : String
  musicStyle : Option String
  inspirationImagePart : Option ImagePart
  stylePrompt : Option String
  quality : QualityMode
deriving DecidableEq, Repr

/-- A browser File, reduced to the parts the orchestrator reads: its MIME
`type` and the base64 payload that `fileToImagePart` extracts. -/
structure JsFile where
  type : String
  dataBase64 : String
deriving DecidableEq, Repr

/-- From src/unnamed/part_000 lines 38-53: fileToImagePart reads the file as a
data URL and wraps its base64 payload and MIME type as an ImagePart. -/
def fileToImagePart (f : JsFile) : ImagePart :=
  { data := f.dataBase64, mimeType := f.type }

/-- From src/services/geminiService.ts: interface ScriptAnalysis. -/
structure ScriptAnalysis where
  title : String
  logline : String
  characters : List Character
  scenes : List Scene
deriving DecidableEq, Repr

/-- The `useState` cells of the App component (src/unnamed/part_000 lines
78-88) that the pipeline reads or writes.  `appState`, `movieData`,
`processingLog`, `error`, `processingStage`, `hasVisualReference`,
`sceneSuggestions` are modelled; presentation-only cells (`isStartingUp`,
`voiceCommand`, `logoUrl`) are omitted. -/
structure RunState where
  appState : AppState
  movieData : Option Movie
  processingLog : List String
  error : Option String
  processingStage : ProcessingStage
  hasVisualReference : Bool
  sceneSuggestions : List SceneSuggestion
deriving DecidableEq, Repr

/-- Initial values of the state cells (src/unnamed/part_000 lines 78-87). -/
def initialRunState : RunState :=
  { appState := .SCRIPT_UPLOAD
    movieData := none
    processingLog := []
    error := none
    processingStage := .ANALYZING_SCRIPT
    hasVisualReference := false
    sceneSuggestions := [] }

/-- From src/unnamed/part_000 lines 106-109: addLog appends a message to the
processing log. -/
def addLog (s : RunState) (message : String) : RunState :=
  { s with processingLog := s.processingLog ++ [message] }

/-- Appending several log lines in order (a sequence of addLog calls). -/
def addLogs (s : RunState) (messages : List String) : RunState :=
  { s with processingLog := s.processingLog ++ messages }

@[simp] theorem addLog_appState (s : RunState) (m : String) :
    (addLog s m).appState = s.appState := rfl
@[simp] theorem addLog_movieData (s : RunState) (m : String) :
    (addLog s m).movieData = s.movieData := rfl
@[simp] theorem addLog_error (s : RunState) (m : String) :
    (addLog s m).error = s.error := rfl
@[simp] theorem addLog_processingStage (s : RunState) (m : String) :
    (addLog s m).processingStage = s.processingStage := rfl
@[simp] theorem addLog_sceneSuggestions (s : RunState) (m : String) :
    (addLog s m).sceneSuggestions = s.sceneSuggestions := rfl
@[simp] theorem addLogs_appState (s : RunState) (m : List String) :
    (addLogs s m).appState = s.appState := rfl
@[simp] theorem addLogs_movieData (s : RunState) (m : List String) :
    (addLogs s m).movieData = s.movieData := rfl
@[simp] theorem addLogs_error (s : RunState) (m : List String) :
    (addLogs s m).error = s.error := rfl
@[simp] theorem addLogs_processingStage (s : RunState) (m : List String) :
    (addLogs s m).processingStage = s.processingStage := rfl

/-- From src/unnamed/part_000 lines 55-74: getStageFriendlyName. -/
def getStageFriendlyName (stage : ProcessingStage) : String :=
  match stage with
  | .ANALYZING_SCRIPT => "Script Analysis"
  | .CASTING_VOICE_ACTORS => "Voice Actor Casting"
  | .GENERATING_VOICE_CLIPS => "Voice Clip Generation"
  | .ANALYZING_STYLE => "Visual Style Analysis"
  | .GENERATING_CHARACTERS => "Character Generation"
  | .GENERATING_STORYBOARD => "Storyboard Generation"
  | .RENDERING_VIDEO => "Video Rendering"

/-- From src/unnamed/part_000 lines 122-129: the characterName accumulator of
handleUpdateCharacterImage (initialised to '' and overwritten on every
matching element, so it ends as the last matching name). -/
def lastMatchingCharacterName (chars : List Character) (characterId : String) : String :=
  chars.foldl (fun acc c => if c.id = characterId then c.name else acc) ""

/-- From src/unnamed/part_000 lines 140-147: the sceneNumber accumulator of
handleUpdateSceneVideo (initialised to -1, overwritten on match). -/
def lastMatchingSceneNumber (scenes : List Scene) (sceneId : String) : Int :=
  scenes.foldl (fun acc sc => if sc.id = sceneId then sc.sceneNumber else acc) (-1)

/-- From src/unnamed/part_000 lines 119-135: handleUpdateCharacterImage.
Maps over the characters, replacing the imageUrl of every character whose id
matches; logs when the new url and the matched name are both truthy.
Returns the new movieData together with the emitted log lines. -/
def handleUpdateCharacterImage (mOpt : Option Movie) (characterId newImageUrl : String) :
    Option Movie × List String :=
  match mOpt with
  | none => (none, [])
  | some prev =>
    let characterName := lastMatchingCharacterName prev.characters characterId
    let newCharacters := prev.characters.map (fun char =>
      if char.id = characterId then { char with imageUrl := newImageUrl } else char)
    let logs := if newImageUrl ≠ "" ∧ characterName ≠ "" then
        ["🎨 Updated visual for character: " ++ characterName ++ "."]
      else []
    (some { prev with characters := newCharacters }, logs)

/-- From src/unnamed/part_000 lines 137-153: handleUpdateSceneVideo. -/
def handleUpdateSceneVideo (mOpt : Option Movie) (sceneId newVideoUrl : String) :
    Option Movie × List String :=
  match mOpt with
  | none => (none, [])
  | some prev =>
    let sceneNumber := lastMatchingSceneNumber prev.scenes sceneId
    let newScenes := prev.scenes.map (fun scene =>
      if scene.id = sceneId then { scene with storyboardVideoUrl := newVideoUrl } else scene)
    let logs := if newVideoUrl ≠ "" ∧ sceneNumber > -1 then
        ["🎞️ Updated animated storyboard for Scene " ++ toString sceneNumber ++ "."]
      else []
    (some { prev with scenes := newScenes }, logs)

/-- From src/unnamed/part_000 lines 155-171: handleUpdateCharacterVoiceLine. -/
def handleUpdateCharacterVoiceLine (mOpt : Option Movie) (characterId newVoiceLine : String) :
    Option Movie × List String :=
  match mOpt with
  | none => (none, [])
  | some prev =>
    let characterName := lastMatchingCharacterName prev.characters characterId
    let newCharacters := prev.characters.map (fun char =>
      if char.id = characterId then { char with voiceLine := some newVoiceLine } else char)
    let logs := if characterName ≠ "" then
        ["✏️ Updated voice line for " ++ characterName ++ "."]
      else []
    (some { prev with characters := newCharacters }, logs)

section KeyedUpdateLemmas

variable {α β : Type}

/-- A keyed map-update touching no element is the identity. -/
theorem map_keyed_update_of_no_match [DecidableEq β] (key : α → β) (f : α → α) (k : β) (l : List α)
    (h : ∀ x ∈ l, key x ≠ k) :
    l.map (fun x => if key x = k then f x else x) = l := by
  induction l with
  | nil => rfl
  | cons a t ih =>
    have ha : key a ≠ k := h a (List.mem_cons_self a t)
    simp only [List.map_cons, if_neg ha]
    rw [ih (fun x hx => h x (List.mem_cons_of_mem a hx))]

/-- Identity of elements sharing a key, under key-uniqueness. -/
theorem key_nodup_inj (key : α → β) {l : List α} (h : (l.map key).Nodup) :
    ∀ x ∈ l, ∀ y ∈ l, key x = key y → x = y := by
  induction l with
  | nil => simp
  | cons a t ih =>
    simp only [List.map_cons, List.nodup_cons, List.mem_map] at h
    obtain ⟨ha, ht⟩ := h
    intro x hx y hy hxy
    cases List.mem_cons.mp hx with
    | inl hxa =>
      cases List.mem_cons.mp hy with
      | inl hya => rw [hxa, hya]
      | inr hyt => exact absurd ⟨y, hyt, by rw [← hxy, hxa]⟩ ha
    | inr hxt =>
      cases List.mem_cons.mp hy with
      | inl hya => exact absurd ⟨x, hxt, by rw [hxy, hya]⟩ ha
      | inr hyt => exact ih ht x hxt y hyt hxy

/-- A keyed map-update rewrites exactly the position holding the key, under
key-uniqueness. -/
theorem map_keyed_update_eq_set [DecidableEq β] (key : α → β) (f : α → α) (k : β) (l : List α)
    (i : Nat) (hi : i < l.length) (hk : key (l.get ⟨i, hi⟩) = k)
    (hnd : (l.map key).Nodup) :
    l.map (fun x => if key x = k then f x else x) = l.set i (f (l.get ⟨i, hi⟩)) := by
  induction l generalizing i with
  | nil => cases hi
  | cons a t ih =>
    simp only [List.map_cons, List.nodup_cons, List.mem_map] at hnd
    obtain ⟨ha, ht⟩ := hnd
    cases i with
    | zero =>
      have hk0 : key a = k := hk
      have hno : ∀ x ∈ t, key x ≠ k := by
        intro x hx hxk
        exact ha ⟨x, hx, by rw [hxk, hk0]⟩
      simp only [List.map_cons, if_pos hk0, List.set]
      rw [map_keyed_update_of_no_match key f k t hno]
      rfl
    | succ j =>
      have hj : j < t.length := Nat.lt_of_succ_lt_succ hi
      have hkj : key (t.get ⟨j, hj⟩) = k := hk
      have hane : ¬ key a = k := by
        intro hak
        exact ha ⟨t.get ⟨j, hj⟩, t.get_mem j hj, by rw [hkj, hak]⟩
      simp only [List.map_cons, if_neg hane, List.set]
      rw [ih j hj hkj ht]
      rfl

end KeyedUpdateLemmas

/-- JS `array.splice(index, 0, item)` insertion: inserts `a` before position
`n`, clamping an index beyond the length to the end (JS splice semantics). -/
def spliceInsert {α : Type} : Nat → α → List α → List α
  | 0, a, l => a :: l
  | _ + 1, a, [] => [a]
  | n + 1, a, x :: xs => x :: spliceInsert n a xs

theorem spliceInsert_length {α : Type} (n : Nat) (a : α) (l : List α) (h : n ≤ l.length) :
    (spliceInsert n a l).length = l.length + 1 := by
  induction l generalizing n with
  | nil =>
    cases n with
    | zero => rfl
    | succ m => cases h
  | cons x xs ih =>
    cases n with
    | zero => rfl
    | succ m =>
      simp only [spliceInsert, List.length_cons]
      rw [ih m (Nat.le_of_succ_le_succ h)]

theorem spliceInsert_getElem?_self {α : Type} (n : Nat) (a : α) (l : List α)
    (h : n ≤ l.length) : (spliceInsert n a l)[n]? = some a := by
  induction l generalizing n with
  | nil =>
    cases n with
    | zero => rfl
    | succ m => cases h
  | cons x xs ih =>
    cases n with
    | zero => rfl
    | succ m =>
      simp only [spliceInsert, List.getElem?_cons_succ]
      exact ih m (Nat.le_of_succ_le_succ h)

theorem spliceInsert_getElem?_lt {α : Type} (n : Nat) (a : α) (l : List α)
    (i : Nat) (h : i < n) (hle : n ≤ l.length) : (spliceInsert n a l)[i]? = l[i]? := by
  induction l generalizing n i with
  | nil =>
    cases n with
    | zero => cases h
    | succ m => cases hle
  | cons x xs ih =>
    cases n with
    | zero => cases h
    | succ m =>
      cases i with
      | zero => simp [spliceInsert]
      | succ j =>
        simp only [spliceInsert, List.getElem?_cons_succ]
        exact ih m j (Nat.lt_of_succ_lt_succ h) (Nat.le_of_succ_le_succ hle)

theorem spliceInsert_getElem?_ge {α : Type} (n : Nat) (a : α) (l : List α)
    (i : Nat) (h : n ≤ i) : (spliceInsert n a l)[i + 1]? = l[i]? := by
  induction l generalizing n i with
  | nil =>
    cases n with
    | zero =>
      simp only [spliceInsert, List.getElem?_cons_succ, List.getElem?_nil]
    | succ m =>
      simp only [spliceInsert, List.getElem?_nil]
      cases i with
      | zero => cases h
      | succ j => simp only [List.getElem?_cons_succ, List.getElem?_nil]
  | cons x xs ih =>
    cases n with
    | zero => simp only [spliceInsert, List.getElem?_cons_succ]
    | succ m =>
      cases i with
      | zero => cases h
      | succ j =>
        simp only [spliceInsert, List.getElem?_cons_succ]
        exact ih m j (Nat.le_of_succ_le_succ h)

/-- From src/unnamed/part_000 lines 433-436: the renumbering map
`newScenes.map((scene, index) => ({ ...scene, sceneNumber: index + 1 }))`,
written as an index-carrying recursion; the argument is the index of the head
element (0 at the top-level call). -/
def renumberScenesFrom : Nat → List Scene → List Scene
  | _, [] => []
  | i, sc :: rest => { sc with sceneNumber := (i : Int) + 1 } :: renumberScenesFrom (i + 1) rest

theorem renumberScenesFrom_length (k : Nat) (l : List Scene) :
    (renumberScenesFrom k l).length = l.length := by
  induction l generalizing k with
  | nil => rfl
  | cons sc rest ih =>
    simp only [renumberScenesFrom, List.length_cons]
    rw [ih]

theorem renumberScenesFrom_getElem? (k : Nat) (l : List Scene) (i : Nat) :
    (renumberScenesFrom k l)[i]? =
      (l[i]?).map (fun sc => { sc with sceneNumber := ((k + i : Nat) : Int) + 1 }) := by
  induction l generalizing k i with
  | nil => simp [renumberScenesFrom]
  | cons sc rest ih =>
    cases i with
    | zero => simp [renumberScenesFrom]
    | succ j =>
      simp only [renumberScenesFrom, List.getElem?_cons_succ]
      rw [ih (k + 1) j]
      have : k + 1 + j = k + (j + 1) := by omega
      rw [this]

/-- From src/unnamed/part_000 line 429: the insertion index
`Math.max(0, Math.min(movieData.scenes.length, suggestion.suggestedLocation - 1))`,
converted to a Nat (it is non-negative because of the outer max). -/
def insertionIndexFor (sceneCount : Nat) (suggestedLocation : Int) : Nat :=
  (max 0 (min (sceneCount : Int) (suggestedLocation - 1))).toNat

theorem insertionIndexFor_le (n : Nat) (p : Int) : insertionIndexFor n p ≤ n := by
  unfold insertionIndexFor
  omega

/-- Result of the synchronous part of handleAcceptSuggestion: the new
movieData, the remaining pending suggestions, and the emitted log lines. -/
structure AcceptResult where
  movieData : Option Movie
  sceneSuggestions : List SceneSuggestion
  log : List String
deriving DecidableEq, Repr

/-- From src/unnamed/part_000 lines 415-438: the synchronous part of
handleAcceptSuggestion (everything before the `await` of the storyboard
collaborator): guard on movieData, consume the suggestion, build the new
Scene (`newId` stands for the fresh `crypto.randomUUID()`), splice it in at
the clamped index and renumber the whole list.  The asynchronous tail only
performs an id-keyed `handleUpdateSceneVideo`, which never changes the list
shape or the numbering. -/
def handleAcceptSuggestionStart (mOpt : Option Movie) (pending : List SceneSuggestion)
    (suggestion : SceneSuggestion) (newId : String) : AcceptResult :=
  match mOpt with
  | none => { movieData := none, sceneSuggestions := pending, log := [] }
  | some movieData =>
    let log := ["👍 Accepted suggestion: \"" ++ suggestion.title ++ "\". Integrating into storyboard..."]
    let remaining := pending.filter (fun s => s.id ≠ suggestion.id)
    let newScene : Scene :=
      { id := newId
        sceneNumber := suggestion.suggestedLocation
        description := suggestion.sceneDescription
        storyboardVideoUrl := "" }
    let insertionIndex := insertionIndexFor movieData.scenes.length suggestion.suggestedLocation
    let newScenes := spliceInsert insertionIndex newScene movieData.scenes
    let renumberedScenes := renumberScenesFrom 0 newScenes
    { movieData := some { movieData with scenes := renumberedScenes }
      sceneSuggestions := remaining
      log := log }

/-- C1: For every scene list and accepted SceneSuggestion, immediately after
the synchronous part of acceptance completes, `scenes[i].sceneNumber = i + 1`
holds at every index of the resulting scene list. -/
theorem claim_C1_accept_renumbers (m : Movie) (pending : List SceneSuggestion)
    (suggestion : SceneSuggestion) (newId : String) (m' : Movie)
    (hm : (handleAcceptSuggestionStart (some m) pending suggestion newId).movieData = some m')
    (i : Nat) (sc : Scene) (hs : m'.scenes[i]? = some sc) :
    sc.sceneNumber = (i : Int) + 1 := by
  simp only [handleAcceptSuggestionStart, Option.some.injEq] at hm
  subst hm
  simp only [renumberScenesFrom_getElem?] at hs
  obtain ⟨a, _, rfl⟩ := Option.map_eq_some'.mp hs
  simp

def scene1 : Scene := { id := "s1", sceneNumber := 1, description := "bridge", storyboardVideoUrl := "v1" }
def scene2 : Scene := { id := "s2", sceneNumber := 2, description := "jungle", storyboardVideoUrl := "v2" }
def scene3 : Scene := { id := "s3", sceneNumber := 3, description := "cavern", storyboardVideoUrl := "v3" }
def scene4 : Scene := { id := "s4", sceneNumber := 4, description := "escape", storyboardVideoUrl := "v4" }

/-- A concrete 4-scene movie used to instantiate the acceptance theorems. -/
def movieFour : Movie :=
  { title := "T", logline := "L", script := "S", characters := [],
    scenes := [scene1, scene2, scene3, scene4], videoUrl := "",
    musicStyle := some "Cinematic", inspirationImagePart := none,
    stylePrompt := none, quality := .standard }

/-- A concrete suggestion targeting position 3. -/
def suggestionAt3 : SceneSuggestion :=
  { id := "sug1", title := "Twist", reasoning := "stakes", sceneDescription := "newdesc",
    suggestedLocation := 3 }

/-- The concrete movie produced by accepting `suggestionAt3` on `movieFour`. -/
def acceptedMovieW : Movie :=
  (handleAcceptSuggestionStart (some movieFour) [suggestionAt3] suggestionAt3 "fresh").movieData.getD movieFour

theorem claim_C1_accept_renumbers_witness :
    (handleAcceptSuggestionStart (some movieFour) [suggestionAt3] suggestionAt3 "fresh").movieData
        = some acceptedMovieW
    ∧ acceptedMovieW.scenes[2]?
        = some { id := "fresh", sceneNumber := 3, description := "newdesc", storyboardVideoUrl := "" }
    ∧ (3 : Int) = (2 : Int) + 1 :=
  ⟨by decide, by decide,
    claim_C1_accept_renumbers movieFour [suggestionAt3] suggestionAt3 "fresh" acceptedMovieW
      (by decide) 2
      { id := "fresh", sceneNumber := 3, description := "newdesc", storyboardVideoUrl := "" }
      (by decide)⟩

/-- C2: accepting a suggestion splices the new scene in at index
clamp(suggestedPosition − 1, 0, n); a position beyond the count appends, a
position ≤ 1 produces scene 1; surrounding scenes shift and renumber; the
concrete 4-scene, position-3 example behaves as described. -/
theorem claim_C2_insertion_clamp (m : Movie) (pending : List SceneSuggestion)
    (suggestion : SceneSuggestion) (newId : String) (m' : Movie)
    (hm : (handleAcceptSuggestionStart (some m) pending suggestion newId).movieData = some m') :
    insertionIndexFor m.scenes.length suggestion.suggestedLocation
        = (min (m.scenes.length : Int) (max 0 (suggestion.suggestedLocation - 1))).toNat
    ∧ m'.scenes.length = m.scenes.length + 1
    ∧ m'.scenes[insertionIndexFor m.scenes.length suggestion.suggestedLocation]? =
        some { id := newId
               sceneNumber := (insertionIndexFor m.scenes.length suggestion.suggestedLocation : Int) + 1
               description := suggestion.sceneDescription
               storyboardVideoUrl := "" }
    ∧ ((m.scenes.length : Int) < suggestion.suggestedLocation →
        insertionIndexFor m.scenes.length suggestion.suggestedLocation = m.scenes.length)
    ∧ (suggestion.suggestedLocation ≤ 1 →
        insertionIndexFor m.scenes.length suggestion.suggestedLocation = 0)
    ∧ (∀ i : Nat, i < insertionIndexFor m.scenes.length suggestion.suggestedLocation →
        m'.scenes[i]? = (m.scenes[i]?).map (fun sc => { sc with sceneNumber := (i : Int) + 1 }))
    ∧ (∀ i : Nat, insertionIndexFor m.scenes.length suggestion.suggestedLocation ≤ i →
        m'.scenes[i + 1]? = (m.scenes[i]?).map (fun sc => { sc with sceneNumber := (i : Int) + 2 }))
    ∧ (m.scenes.length = 4 → suggestion.suggestedLocation = 3 →
        m'.scenes.length = 5
        ∧ m'.scenes[2]? = some { id := newId, sceneNumber := 3, description := suggestion.sceneDescription, storyboardVideoUrl := "" }
        ∧ m'.scenes[3]? = (m.scenes[2]?).map (fun sc => { sc with sceneNumber := 4 })) := by
  simp only [handleAcceptSuggestionStart, Option.some.injEq] at hm
  subst hm
  have hle : insertionIndexFor m.scenes.length suggestion.suggestedLocation ≤ m.scenes.length :=
    insertionIndexFor_le _ _
  have hcast0 : ∀ j : Nat, ((0 + j : Nat) : Int) + 1 = (j : Int) + 1 := by
    intro j
    push_cast
    ring
  have hcast1 : ∀ j : Nat, ((0 + (j + 1) : Nat) : Int) + 1 = (j : Int) + 2 := by
    intro j
    push_cast
    ring
  have hclamp : insertionIndexFor m.scenes.length suggestion.suggestedLocation
      = (min (m.scenes.length : Int) (max 0 (suggestion.suggestedLocation - 1))).toNat := by
    unfold insertionIndexFor
    omega
  have hlen : (renumberScenesFrom 0
        (spliceInsert (insertionIndexFor m.scenes.length suggestion.suggestedLocation)
          { id := newId, sceneNumber := suggestion.suggestedLocation,
            description := suggestion.sceneDescription, storyboardVideoUrl := "" }
          m.scenes)).length = m.scenes.length + 1 := by
    rw [renumberScenesFrom_length, spliceInsert_length _ _ _ hle]
  have hat : (renumberScenesFrom 0
        (spliceInsert (insertionIndexFor m.scenes.length suggestion.suggestedLocation)
          { id := newId, sceneNumber := suggestion.suggestedLocation,
            description := suggestion.sceneDescription, storyboardVideoUrl := "" }
          m.scenes))[insertionIndexFor m.scenes.length suggestion.suggestedLocation]? =
      some { id := newId
             sceneNumber := (insertionIndexFor m.scenes.length suggestion.suggestedLocation : Int) + 1
             description := suggestion.sceneDescription
             storyboardVideoUrl := "" } := by
    rw [renumberScenesFrom_getElem?, spliceInsert_getElem?_self _ _ _ hle]
    simp only [Option.map_some', hcast0]
  have hlt : ∀ i : Nat, i < insertionIndexFor m.scenes.length suggestion.suggestedLocation →
      (renumberScenesFrom 0
        (spliceInsert (insertionIndexFor m.scenes.length suggestion.suggestedLocation)
          { id := newId, sceneNumber := suggestion.suggestedLocation,
            description := suggestion.sceneDescription, storyboardVideoUrl := "" }
          m.scenes))[i]? = (m.scenes[i]?).map (fun sc => { sc with sceneNumber := (i : Int) + 1 }) := by
    intro i hi
    rw [renumberScenesFrom_getElem?, spliceInsert_getElem?_lt _ _ _ i hi hle]
    simp only [hcast0]
  have hge : ∀ i : Nat, insertionIndexFor m.scenes.length suggestion.suggestedLocation ≤ i →
      (renumberScenesFrom 0
        (spliceInsert (insertionIndexFor m.scenes.length suggestion.suggestedLocation)
          { id := newId, sceneNumber := suggestion.suggestedLocation,
            description := suggestion.sceneDescription, storyboardVideoUrl := "" }
          m.scenes))[i + 1]? = (m.scenes[i]?).map (fun sc => { sc with sceneNumber := (i : Int) + 2 }) := by
    intro i hi
    rw [renumberScenesFrom_getElem?, spliceInsert_getElem?_ge _ _ _ i hi]
    simp only [hcast1]
  refine ⟨hclamp, hlen, hat, ?_, ?_, hlt, hge, ?_⟩
  · intro hgt
    unfold insertionIndexFor
    omega
  · intro hle1
    unfold insertionIndexFor
    omega
  · intro h4 h3
    have hidx : insertionIndexFor m.scenes.length suggestion.suggestedLocation = 2 := by
      rw [h4, h3]
      rfl
    refine ⟨by rw [hlen, h4], ?_, ?_⟩
    · have h := hat
      rw [hidx] at h
      norm_num at h
      dsimp only
      rw [hidx]
      exact h
    · have h := hge 2 hidx.le
      rw [hidx] at h
      norm_num at h
      dsimp only
      rw [hidx]
      exact h

theorem claim_C2_insertion_clamp_witness :
    (handleAcceptSuggestionStart (some movieFour) [suggestionAt3] suggestionAt3 "fresh").movieData
        = some acceptedMovieW
    ∧ acceptedMovieW.scenes.length = 5
    ∧ acceptedMovieW.scenes[2]? = some { id := "fresh", sceneNumber := 3, description := "newdesc", storyboardVideoUrl := "" } := by
  refine ⟨by decide, ?_, ?_⟩
  · exact (claim_C2_insertion_clamp movieFour [suggestionAt3] suggestionAt3 "fresh"
      acceptedMovieW (by decide)).2.1
  · have h := (claim_C2_insertion_clamp movieFour [suggestionAt3] suggestionAt3 "fresh"
      acceptedMovieW (by decide)).2.2.1
    exact h.trans (by decide)

/-- C10: an id-keyed update with a stale id is an exact no-op on the document;
with a matching id only the single targeted field of the single matching item
changes, every other item and every other document field being untouched. -/
theorem claim_C10_keyed_update_frame (m : Movie) (tid v : String) :
    ((∀ c ∈ m.characters, c.id ≠ tid) →
        (handleUpdateCharacterImage (some m) tid v).1 = some m
        ∧ (handleUpdateCharacterVoiceLine (some m) tid v).1 = some m)
    ∧ ((∀ sc ∈ m.scenes, sc.id ≠ tid) →
        (handleUpdateSceneVideo (some m) tid v).1 = some m)
    ∧ ((m.characters.map Character.id).Nodup →
        ∀ i : Nat, ∀ hi : i < m.characters.length, (m.characters.get ⟨i, hi⟩).id = tid →
          (handleUpdateCharacterImage (some m) tid v).1
              = some { m with characters := m.characters.set i { m.characters.get ⟨i, hi⟩ with imageUrl := v } }
          ∧ (handleUpdateCharacterVoiceLine (some m) tid v).1
              = some { m with characters := m.characters.set i { m.characters.get ⟨i, hi⟩ with voiceLine := some v } })
    ∧ ((m.scenes.map Scene.id).Nodup →
        ∀ i : Nat, ∀ hi : i < m.scenes.length, (m.scenes.get ⟨i, hi⟩).id = tid →
          (handleUpdateSceneVideo (some m) tid v).1
              = some { m with scenes := m.scenes.set i { m.scenes.get ⟨i, hi⟩ with storyboardVideoUrl := v } }) := by
  refine ⟨?_, ?_, ?_, ?_⟩
  · intro h
    constructor
    · simp only [handleUpdateCharacterImage]
      rw [map_keyed_update_of_no_match Character.id _ tid m.characters h]
    · simp only [handleUpdateCharacterVoiceLine]
      rw [map_keyed_update_of_no_match Character.id _ tid m.characters h]
  · intro h
    simp only [handleUpdateSceneVideo]
    rw [map_keyed_update_of_no_match Scene.id _ tid m.scenes h]
  · intro hnd i hi hid
    constructor
    · simp only [handleUpdateCharacterImage]
      rw [map_keyed_update_eq_set Character.id _ tid m.characters i hi hid hnd]
    · simp only [handleUpdateCharacterVoiceLine]
      rw [map_keyed_update_eq_set Character.id _ tid m.characters i hi hid hnd]
  · intro hnd i hi hid
    simp only [handleUpdateSceneVideo]
    rw [map_keyed_update_eq_set Scene.id _ tid m.scenes i hi hid hnd]

def charA : Character :=
  { id := "a", name := "Kael", description := "pilot", imageUrl := "imgA",
    voiceActor := none, voiceLine := none }

def charB : Character :=
  { id := "b", name := "Zora", description := "botanist", imageUrl := "imgB",
    voiceActor := none, voiceLine := none }

/-- A concrete movie with two characters and two scenes used as witness input. -/
def movieTwoChars : Movie :=
  { title := "T", logline := "L", script := "S", characters := [charA, charB],
    scenes := [scene1, scene2], videoUrl := "",
    musicStyle := some "Cinematic", inspirationImagePart := none,
    stylePrompt := none, quality := .standard }

theorem claim_C10_keyed_update_frame_witness :
    (handleUpdateCharacterImage (some movieTwoChars) "zz" "url").1 = some movieTwoChars
    ∧ (handleUpdateCharacterImage (some movieTwoChars) "a" "url").1
        = some { movieTwoChars with characters := [{ charA with imageUrl := "url" }, charB] } := by
  constructor
  · exact ((claim_C10_keyed_update_frame movieTwoChars "zz" "url").1 (by decide)).1
  · have h := (((claim_C10_keyed_update_frame movieTwoChars "a" "url").2.2.1 (by decide))
      0 (by decide) (by decide)).1
    exact h.trans (by decide)

/-- Composing two keyed updates on the same key: the second value wins on the
matching elements (the key being preserved by the first update). -/
theorem map_keyed_update_twice {α β : Type} [DecidableEq β] (key : α → β) (f g : α → α) (k : β)
    (hkey : ∀ x, key (f x) = key x) (l : List α) :
    (l.map (fun x => if key x = k then f x else x)).map (fun x => if key x = k then g x else x)
      = l.map (fun x => if key x = k then g (f x) else x) := by
  induction l with
  | nil => rfl
  | cons a t ih =>
    simp only [List.map_cons, ih]
    by_cases h : key a = k
    · rw [if_pos h, if_pos ((hkey a).trans h), if_pos h]
    · rw [if_neg h, if_neg h, if_neg h]

/-- A conditional map-update whose update fixes every element it touches is
the identity. -/
theorem map_cond_update_eq_self {α : Type} (p : α → Prop) [DecidablePred p] (u : α → α)
    (l : List α) (h : ∀ x ∈ l, p x → u x = x) :
    l.map (fun x => if p x then u x else x) = l := by
  induction l with
  | nil => rfl
  | cons a t ih =>
    simp only [List.map_cons]
    rw [ih (fun x hx => h x (List.mem_cons_of_mem a hx))]
    by_cases ha : p a
    · rw [if_pos ha, h a (List.mem_cons_self a t) ha]
    · rw [if_neg ha]

/-- From src/unnamed/part_000 lines 351-372: handleRegenerateCharacter, run to
completion: the guards, the log, the loading-sentinel write, the collaborator
call and the completion continuation (success write or failure restore; a
collaborator failure is caught and never rethrown, so the function is total). -/
def handleRegenerateCharacter
    (generateCharacterImage : String → Option String → QualityMode → Except String String)
    (mOpt : Option Movie) (characterId : String) : Option Movie × List String :=
  match mOpt with
  | none => (none, [])
  | some movieData =>
    match movieData.characters.find? (fun c => c.id = characterId) with
    | none => (some movieData, [])
    | some originalCharacter =>
      let log0 := ["🔄 Regenerating visual for character " ++ originalCharacter.name ++ "..."]
      let s1 := handleUpdateCharacterImage (some movieData) characterId ""
      match generateCharacterImage originalCharacter.description movieData.stylePrompt movieData.quality with
      | .ok newImageUrl =>
        let s2 := handleUpdateCharacterImage s1.1 characterId newImageUrl
        (s2.1, log0 ++ s1.2 ++ s2.2)
      | .error _ =>
        let s2 := handleUpdateCharacterImage s1.1 characterId originalCharacter.imageUrl
        (s2.1, log0 ++ s1.2
          ++ ["❌ Failed to regenerate visual for " ++ originalCharacter.name ++ ". Restoring original."]
          ++ s2.2)

/-- C5: regenerating an existing character's image ends, on collaborator
success, with that character's image equal to the returned value (and only
that field of that character changed); on collaborator failure the document is
exactly its pre-regeneration value — the sentinel does not survive — and the
error is not propagated (the handler is total and returns a normal state). -/
theorem claim_C5_regenerate_character
    (gen : String → Option String → QualityMode → Except String String)
    (m : Movie) (cid : String) (c : Character)
    (hfind : m.characters.find? (fun ch => ch.id = cid) = some c)
    (hnd : (m.characters.map Character.id).Nodup) :
    (∀ url, gen c.description m.stylePrompt m.quality = .ok url →
        (handleRegenerateCharacter gen (some m) cid).1
          = some { m with characters :=
              m.characters.map (fun ch => if ch.id = cid then { ch with imageUrl := url } else ch) }
        ∧ ∀ ch ∈ (handleRegenerateCharacter gen (some m) cid).1.getD m |>.characters,
            ch.id = cid → ch.imageUrl = url)
    ∧ (∀ e, gen c.description m.stylePrompt m.quality = .error e →
        (handleRegenerateCharacter gen (some m) cid).1 = some m) := by
  have hcmem : c ∈ m.characters := List.mem_of_find?_eq_some hfind
  have hcid : c.id = cid := by
    have := List.find?_some hfind
    exact of_decide_eq_true this
  constructor
  · intro url hok
    have hmain : (handleRegenerateCharacter gen (some m) cid).1
        = some { m with characters :=
            m.characters.map (fun ch => if ch.id = cid then { ch with imageUrl := url } else ch) } := by
      simp only [handleRegenerateCharacter, hfind, hok, handleUpdateCharacterImage]
      rw [map_keyed_update_twice Character.id (fun ch => { ch with imageUrl := "" })
        (fun ch => { ch with imageUrl := url }) cid (fun x => rfl) m.characters]
    refine ⟨hmain, ?_⟩
    rw [hmain]
    intro ch hch hchid
    simp only [Option.getD_some] at hch
    obtain ⟨ch0, _, rfl⟩ := List.mem_map.mp hch
    by_cases h0 : ch0.id = cid
    · rw [if_pos h0]
    · rw [if_neg h0] at hchid ⊢
      exact absurd hchid h0
  · intro e herr
    simp only [handleRegenerateCharacter, hfind, herr, handleUpdateCharacterImage]
    rw [map_keyed_update_twice Character.id (fun ch => { ch with imageUrl := "" })
      (fun ch => { ch with imageUrl := c.imageUrl }) cid (fun x => rfl) m.characters]
    rw [map_cond_update_eq_self _ _ m.characters]
    intro x hx hxid
    have hxc : x = c := key_nodup_inj Character.id hnd x hx c hcmem (hxid.trans hcid.symm)
    subst hxc
    rfl

def genImgOkW : String → Option String → QualityMode → Except String String :=
  fun _ _ _ => .ok "newimg"

def genImgFailW : String → Option String → QualityMode → Except String String :=
  fun _ _ _ => .error "boom"

theorem claim_C5_regenerate_character_witness :
    (handleRegenerateCharacter genImgOkW (some movieTwoChars) "a").1
        = some { movieTwoChars with characters := [{ charA with imageUrl := "newimg" }, charB] }
    ∧ (handleRegenerateCharacter genImgFailW (some movieTwoChars) "a").1 = some movieTwoChars := by
  constructor
  · have h := ((claim_C5_regenerate_character genImgOkW movieTwoChars "a" charA
      (by decide) (by decide)).1 "newimg" rfl).1
    exact h.trans (by decide)
  · exact (claim_C5_regenerate_character genImgFailW movieTwoChars "a" charA
      (by decide) (by decide)).2 "boom" rfl

/-- From src/unnamed/part_000 lines 351-358: the synchronous prefix of
handleRegenerateCharacter — guards, the log line and the loading-sentinel
write — i.e. everything executed before the `await` on the image collaborator
starts. -/
def handleRegenerateCharacterStart (mOpt : Option Movie) (characterId : String) :
    Option Movie × List String :=
  match mOpt with
  | none => (none, [])
  | some movieData =>
    match movieData.characters.find? (fun c => c.id = characterId) with
    | none => (some movieData, [])
    | some originalCharacter =>
      let s1 := handleUpdateCharacterImage (some movieData) characterId ""
      (s1.1, ["🔄 Regenerating visual for character " ++ originalCharacter.name ++ "..."] ++ s1.2)

/-- From src/unnamed/part_000 lines 374-381: the synchronous prefix of
handleRegenerateScene — guards, the log line and the loading-sentinel write. -/
def handleRegenerateSceneStart (mOpt : Option Movie) (sceneId : String) :
    Option Movie × List String :=
  match mOpt with
  | none => (none, [])
  | some movieData =>
    match movieData.scenes.find? (fun s => s.id = sceneId) with
    | none => (some movieData, [])
    | some originalScene =>
      let s1 := handleUpdateSceneVideo (some movieData) sceneId ""
      (s1.1, ["🔄 Regenerating animated storyboard for Scene " ++ toString originalScene.sceneNumber ++ "..."] ++ s1.2)

/-- From src/unnamed/part_000 lines 397-404: the synchronous prefix of
handleRegenerateCharacterVoiceLine — guards and a log line only.  Unlike the
image and storyboard handlers, it performs no document write before its
`await`. -/
def handleRegenerateCharacterVoiceLineStart (mOpt : Option Movie) (characterId : String) :
    Option Movie × List String :=
  match mOpt with
  | none => (none, [])
  | some movieData =>
    match movieData.characters.find? (fun c => c.id = characterId) with
    | none => (some movieData, [])
    | some character =>
      (some movieData, ["🔄 Regenerating voice line for " ++ character.name ++ "..."])

/-- A concrete movie whose only character already holds a voice line, used to
exhibit the missing loading sentinel of voice-line regeneration. -/
def movieVoice : Movie :=
  { title := "T", logline := "L", script := "S",
    characters := [{ id := "cv", name := "Kael", description := "pilot", imageUrl := "img",
                     voiceActor := some { name := "Act", vocalStyle := "calm" },
                     voiceLine := some "old line" }],
    scenes := [], videoUrl := "", musicStyle := none, inspirationImagePart := none,
    stylePrompt := none, quality := .standard }

/-- C6 counterexample: invoking voice-line regeneration leaves the document
completely unchanged before the collaborator call — the character's voiceLine
field still holds the old line, not the empty-string loading sentinel, so an
observer reading the document between invocation and completion does not see
a sentinel for this asset kind. -/
theorem claim_C6_counterexample :
    (handleRegenerateCharacterVoiceLineStart (some movieVoice) "cv").1 = some movieVoice
    ∧ movieVoice.characters.map Character.voiceLine = [some "old line"]
    ∧ some "old line" ≠ some "" := by decide

/-- C6 amended: the character-image and scene-storyboard regenerations
synchronously write the empty-string loading sentinel into the targeted item
before their collaborator call starts; the voice-line regeneration performs
no document write at all before its collaborator call, so the document is
unchanged until completion. -/
theorem claim_C6_loading_sentinel (m : Movie) (cid sid : String) :
    (∀ m', (handleRegenerateCharacterStart (some m) cid).1 = some m' →
        (∀ ch ∈ m'.characters, ch.id = cid → ch.imageUrl = "")
        ∧ m'.scenes = m.scenes)
    ∧ (∀ m', (handleRegenerateSceneStart (some m) sid).1 = some m' →
        (∀ sc ∈ m'.scenes, sc.id = sid → sc.storyboardVideoUrl = "")
        ∧ m'.characters = m.characters)
    ∧ (handleRegenerateCharacterVoiceLineStart (some m) cid).1 = some m := by
  refine ⟨?_, ?_, ?_⟩
  · intro m' hm'
    rcases hfind : m.characters.find? (fun c => c.id = cid) with _ | c
    · rw [handleRegenerateCharacterStart] at hm'
      simp only [hfind, Option.some.injEq] at hm'
      subst hm'
      refine ⟨?_, rfl⟩
      intro ch hch hchid
      have := List.find?_eq_none.mp hfind ch hch
      exact absurd (decide_eq_true hchid) this
    · rw [handleRegenerateCharacterStart] at hm'
      simp only [hfind, handleUpdateCharacterImage, Option.some.injEq] at hm'
      subst hm'
      refine ⟨?_, rfl⟩
      intro ch hch hchid
      obtain ⟨ch0, _, rfl⟩ := List.mem_map.mp hch
      by_cases h0 : ch0.id = cid
      · rw [if_pos h0]
      · rw [if_neg h0] at hchid ⊢
        exact absurd hchid h0
  · intro m' hm'
    rcases hfind : m.scenes.find? (fun s => s.id = sid) with _ | sc0
    · rw [handleRegenerateSceneStart] at hm'
      simp only [hfind, Option.some.injEq] at hm'
      subst hm'
      refine ⟨?_, rfl⟩
      intro sc hsc hscid
      have := List.find?_eq_none.mp hfind sc hsc
      exact absurd (decide_eq_true hscid) this
    · rw [handleRegenerateSceneStart] at hm'
      simp only [hfind, handleUpdateSceneVideo, Option.some.injEq] at hm'
      subst hm'
      refine ⟨?_, rfl⟩
      intro sc hsc hscid
      obtain ⟨sc1, _, rfl⟩ := List.mem_map.mp hsc
      by_cases h0 : sc1.id = sid
      · rw [if_pos h0]
      · rw [if_neg h0] at hscid ⊢
        exact absurd hscid h0
  · rcases hfind : m.characters.find? (fun c => c.id = cid) with _ | c <;>
      simp [handleRegenerateCharacterVoiceLineStart, hfind]

theorem claim_C6_loading_sentinel_witness :
    ({ charA with imageUrl := "" } : Character).imageUrl = ""
    ∧ (handleRegenerateCharacterVoiceLineStart (some movieTwoChars) "a").1 = some movieTwoChars := by
  constructor
  · exact ((claim_C6_loading_sentinel movieTwoChars "a" "s1").1
      { movieTwoChars with characters := [{ charA with imageUrl := "" }, charB] }
      (by decide)).1 { charA with imageUrl := "" } (by decide) (by decide)
  · exact (claim_C6_loading_sentinel movieTwoChars "a" "s1").2.2

/-- The external collaborators the sequencer calls (src/services/geminiService.ts,
src/utils/glif/glifAPI, src/utils/casting/voiceActorMatcher), abstracted as
functions.  Per the code, generateSceneSuggestions and matchVoiceActors catch
internally and never reject, so they are total; the rest may reject. -/
structure Collaborators where
  analyzeScript : String → Except String ScriptAnalysis
  analyzeImageStyle : ImagePart → Except String String
  generateSceneSuggestions : String → List Scene → List SceneSuggestion
  matchVoiceActors : List Character → List (String × VoiceActor)
  generateCharacterVoiceLine : Character → Except String String
  generateCharacterImage : String → Option String → QualityMode → Except String String
  generateStoryboardVideo : String → Option String → QualityMode → Except String String

/-- From src/unnamed/part_000 lines 240-247: the casting map over the
characters (lookup by name in the returned casting map), collecting the
per-cast log lines in list order. -/
def applyCasting (voiceCasting : List (String × VoiceActor)) :
    List Character → List Character × List String
  | [] => ([], [])
  | char :: rest =>
    let r := applyCasting voiceCasting rest
    match (voiceCasting.find? (fun p => p.1 = char.name)).map Prod.snd with
    | some voiceActor =>
        ({ char with voiceActor := some voiceActor } :: r.1,
         ("🎤 Cast " ++ voiceActor.name ++ " as " ++ char.name ++ ".") :: r.2)
    | none => (char :: r.1, r.2)

/-- From src/unnamed/part_000 lines 259-263: the Promise.all fan-out of
generateCharacterVoiceLine over the filtered characters.  The fan-out carries
no local catch, so it is fail-fast like a rejected Promise.all; a success
yields the updated characters with their per-character log lines. -/
def generateLines (gen : Character → Except String String) :
    List Character → Except String (List Character × List String)
  | [] => .ok ([], [])
  | char :: rest =>
    match gen char with
    | .error e => .error e
    | .ok voiceLine =>
      match generateLines gen rest with
      | .error e => .error e
      | .ok r => .ok ({ char with voiceLine := some voiceLine } :: r.1,
          ("💬 Generated voice line for " ++ char.name ++ ".") :: r.2)

/-- From src/unnamed/part_000 lines 265-267: re-associate the updated filtered
subset with the full character list by character id. -/
def reassociateById (orig updated : List Character) : List Character :=
  orig.map (fun origChar => (updated.find? (fun u => u.id = origChar.id)).getD origChar)

/-- From src/unnamed/part_000 lines 257-267: the character list produced by
the voice-line stage — filter to the cast characters, fan out the line
generation, then re-associate by id.  `.error` is the rejection of the
Promise.all escaping the stage. -/
def voiceStageCharacters (gen : Character → Except String String) (chars : List Character) :
    Except String (List Character) :=
  match generateLines gen (chars.filter (fun c => c.voiceActor.isSome)) with
  | .error e => .error e
  | .ok r => .ok (reassociateById chars r.1)

/-- From src/unnamed/part_000 lines 278-290: the sequential per-character
visual loop; each iteration has its own catch, keeping the original character
on failure. -/
def generateVisuals (genImg : String → Option String → QualityMode → Except String String)
    (stylePrompt : Option String) (quality : QualityMode) :
    List Character → List Character × List String
  | [] => ([], [])
  | char :: rest =>
    let r := generateVisuals genImg stylePrompt quality rest
    match genImg char.description stylePrompt quality with
    | .ok imageUrl => ({ char with imageUrl := imageUrl } :: r.1,
        ("🎨 Visual for character " ++ char.name ++ " created.") :: r.2)
    | .error e => (char :: r.1,
        ("❌ Failed to generate visual for " ++ char.name ++ ". Error: " ++ e) :: r.2)

/-- From src/unnamed/part_000 lines 297-309: the sequential per-scene
storyboard loop; per-scene failures are caught locally. -/
def generateStoryboards (genVid : String → Option String → QualityMode → Except String String)
    (stylePrompt : Option String) (quality : QualityMode) :
    List Scene → List Scene × List String
  | [] => ([], [])
  | scene :: rest =>
    let r := generateStoryboards genVid stylePrompt quality rest
    match genVid scene.description stylePrompt quality with
    | .ok storyboardVideoUrl => ({ scene with storyboardVideoUrl := storyboardVideoUrl } :: r.1,
        ("🎞️ Animated storyboard for Scene " ++ toString scene.sceneNumber ++ " created.") :: r.2)
    | .error e => (scene :: r.1,
        ("❌ Failed to generate storyboard for Scene " ++ toString scene.sceneNumber ++ ". Error: " ++ e) :: r.2)

/-- From src/unnamed/part_000 lines 295-315: the storyboard stage and the
transition to Review. -/
def runStoryboardStage (C : Collaborators) (movie : Movie) (stylePrompt : Option String)
    (quality : QualityMode) (s : RunState) : Except (RunState × String) RunState :=
  let s := { s with processingStage := .GENERATING_STORYBOARD }
  let s := addLog s "🖼️ Generating animated storyboard (one scene at a time to respect API limits)..."
  let r := generateStoryboards C.generateStoryboardVideo stylePrompt quality movie.scenes
  let movie := { movie with scenes := r.1 }
  let s := addLogs s r.2
  let s := { s with movieData := some movie }
  let s := addLog s "✅ Storyboard generation complete."
  let s := addLog s "🎬 Pre-production complete. Ready to render the final movie."
  .ok { s with appState := .REVIEW }

/-- From src/unnamed/part_000 lines 276-293: the character-visuals stage. -/
def runVisualsStage (C : Collaborators) (movie : Movie) (stylePrompt : Option String)
    (quality : QualityMode) (s : RunState) : Except (RunState × String) RunState :=
  let s := { s with processingStage := .GENERATING_CHARACTERS }
  let s := addLog s "👤 Generating character visuals (one at a time to respect API limits)..."
  let r := generateVisuals C.generateCharacterImage stylePrompt quality movie.characters
  let movie := { movie with characters := r.1 }
  let s := addLogs s r.2
  let s := { s with movieData := some movie }
  let s := addLog s "✅ All character visuals generated."
  runStoryboardStage C movie stylePrompt quality s

/-- From src/unnamed/part_000 lines 255-274: the voice-line stage.  The
Promise.all has no local catch, so a single rejection escapes the stage. -/
def runVoiceLineStage (C : Collaborators) (movie : Movie) (stylePrompt : Option String)
    (quality : QualityMode) (s : RunState) : Except (RunState × String) RunState :=
  let s := { s with processingStage := .GENERATING_VOICE_CLIPS }
  let s := addLog s "🗣️ Generating character voice lines..."
  let charactersToGetLinesFor := movie.characters.filter (fun c => c.voiceActor.isSome)
  if 0 < charactersToGetLinesFor.length then
    match generateLines C.generateCharacterVoiceLine charactersToGetLinesFor with
    | .error e => .error (s, e)
    | .ok r =>
      let finalCharacters := reassociateById movie.characters r.1
      let movie := { movie with characters := finalCharacters }
      let s := addLogs s r.2
      let s := { s with movieData := some movie }
      let s := addLog s "✅ All voice lines generated."
      runVisualsStage C movie stylePrompt quality s
  else
    let s := addLog s "⚠️ No voice actors cast, skipping voice line generation."
    runVisualsStage C movie stylePrompt quality s

/-- From src/unnamed/part_000 lines 236-253: the voice-casting stage. -/
def runCastingStage (C : Collaborators) (movie : Movie) (stylePrompt : Option String)
    (quality : QualityMode) (s : RunState) : Except (RunState × String) RunState :=
  let s := { s with processingStage := .CASTING_VOICE_ACTORS }
  let s := addLog s "🎙️ Casting fictional voice actors..."
  let voiceCasting := C.matchVoiceActors movie.characters
  if 0 < voiceCasting.length then
    let r := applyCasting voiceCasting movie.characters
    let movie := { movie with characters := r.1 }
    let s := addLogs s r.2
    let s := { s with movieData := some movie }
    let s := addLog s "✅ Voice casting complete."
    runVoiceLineStage C movie stylePrompt quality s
  else
    let s := addLog s "⚠️ Voice casting was skipped or failed. Continuing without it."
    runVoiceLineStage C movie stylePrompt quality s

/-- From src/unnamed/part_000 lines 222-234: document creation after script
analysis and the suggestion-consultation step, continuing into casting. -/
def runAfterAnalysis (C : Collaborators) (analysis : ScriptAnalysis) (script musicStyle : String)
    (inspirationImagePart : Option ImagePart) (stylePrompt : Option String)
    (quality : QualityMode) (s : RunState) : Except (RunState × String) RunState :=
  let movie : Movie :=
    { title := analysis.title, logline := analysis.logline, script := script,
      characters := analysis.characters, scenes := analysis.scenes, videoUrl := "",
      musicStyle := some musicStyle, inspirationImagePart := inspirationImagePart,
      stylePrompt := stylePrompt, quality := quality }
  let s := { s with movieData := some movie }
  let s := addLog s "✅ Script analysis complete."
  let s := addLog s ("🎵 Music style selected: \"" ++ musicStyle ++ "\".")
  let s := addLog s "🧠 Consulting AI Story Co-writer (inspired by NotebookLM)..."
  let suggestions := C.generateSceneSuggestions movie.logline movie.scenes
  let s :=
    if 0 < suggestions.length then
      addLog { s with sceneSuggestions := suggestions }
        ("💡 AI has proposed " ++ toString suggestions.length ++ " new scene idea(s) for your review.")
    else
      addLog s "✅ Story structure is solid. No new scenes suggested."
  runCastingStage C movie stylePrompt quality s

/-- From src/unnamed/part_000 line 205, read with JavaScript operator
precedence: `imageFile || (videoFile && videoFile.type.startsWith('image/'))
? videoFile : imageFile` parses as a conditional whose condition is the whole
disjunction, so the expression yields `videoFile` whenever `imageFile` is
present. -/
def referenceFileOf (imageFile videoFile : Option JsFile) : Option JsFile :=
  if imageFile.isSome
      || (match videoFile with | some v => v.type.startsWith "image/" | none => false) then
    videoFile
  else
    imageFile

/-- From src/unnamed/part_000 lines 191-316: the try-body of
generatePreProductionAssets.  A thrown error is returned as `.error` with the
state at the throw point and the message, to be handled by the catch block. -/
def runBody (C : Collaborators) (isDemoMode : Bool) (script : String)
    (imageFile videoFile : Option JsFile) (isHighQuality : Bool) (musicStyle : String)
    (s : RunState) : Except (RunState × String) RunState :=
  let s := addLog s "🎬 Starting movie generation..."
  let s := if isDemoMode then addLog s "🚀 Running in Demo Mode. API calls will be bypassed." else s
  let quality : QualityMode := if isHighQuality then .high else .standard
  let s := if isHighQuality then addLog s "⚙️ High quality mode enabled. Visual generation may take longer." else s
  let referenceFile := referenceFileOf imageFile videoFile
  let s := if referenceFile.isSome then { s with hasVisualReference := true } else s
  let s := { s with processingStage := .ANALYZING_SCRIPT }
  let s := addLog s "📝 Analyzing script with AI..."
  match C.analyzeScript script with
  | .error e => .error (s, e)
  | .ok analysis =>
    match referenceFile with
    | some rf =>
      let s := { s with processingStage := .ANALYZING_STYLE }
      let s := addLog s "🖼️ Processing visual reference..."
      let inspirationImagePart := fileToImagePart rf
      match C.analyzeImageStyle inspirationImagePart with
      | .error e => .error (s, e)
      | .ok stylePrompt =>
        let s := addLog s ("🎨 Visual style identified: \"" ++ stylePrompt ++ "\"")
        runAfterAnalysis C analysis script musicStyle (some inspirationImagePart)
          (some stylePrompt) quality s
    | none =>
      let s := if videoFile.isSome then
          addLog s "ℹ️ Video style analysis is not yet supported. The video file will be ignored."
        else s
      runAfterAnalysis C analysis script musicStyle none none quality s

/-- From src/unnamed/part_000 lines 317-323: the catch block of
generatePreProductionAssets. -/
def applyCatch (r : Except (RunState × String) RunState) : RunState :=
  match r with
  | .ok s => s
  | .error (s, errorMessage) =>
    let friendlyStageName := getStageFriendlyName s.processingStage
    let s := { s with
      error := some ("Failure during " ++ friendlyStageName ++ ". Details: " ++ errorMessage),
      appState := .ERROR }
    addLog s ("❌ Error: " ++ errorMessage)

/-- From src/unnamed/part_000 lines 191-324: generatePreProductionAssets as a
whole (try-body plus catch). -/
def generatePreProductionAssets (C : Collaborators) (isDemoMode : Bool) (script : String)
    (imageFile videoFile : Option JsFile) (isHighQuality : Bool) (musicStyle : String)
    (s : RunState) : RunState :=
  applyCatch (runBody C isDemoMode script imageFile videoFile isHighQuality musicStyle s)

/-- From src/unnamed/part_000 lines 459-467: handleGenerate resets the state
cells and starts the run. -/
def handleGenerate (C : Collaborators) (isDemoMode : Bool) (script : String)
    (imageFile videoFile : Option JsFile) (isHighQuality : Bool) (musicStyle : String)
    (s : RunState) : RunState :=
  let s := { s with appState := .PROCESSING
                    processingStage := .ANALYZING_SCRIPT
                    movieData := none
                    processingLog := []
                    error := none
                    sceneSuggestions := [] }
  generatePreProductionAssets C isDemoMode script imageFile videoFile isHighQuality musicStyle s

/-- C7: when the script analyzer rejects, the run ends with the document
still unset, run status ERROR, and an error message containing the stage name
"Script Analysis". -/
theorem claim_C7_analyzer_rejection (C : Collaborators) (isDemoMode : Bool) (script : String)
    (imageFile videoFile : Option JsFile) (isHighQuality : Bool) (musicStyle : String)
    (s0 : RunState) (e : String)
    (h : C.analyzeScript script = .error e) :
    (handleGenerate C isDemoMode script imageFile videoFile isHighQuality musicStyle s0).movieData = none
    ∧ (handleGenerate C isDemoMode script imageFile videoFile isHighQuality musicStyle s0).appState = .ERROR
    ∧ (handleGenerate C isDemoMode script imageFile videoFile isHighQuality musicStyle s0).error
        = some ("Failure during Script Analysis. Details: " ++ e)
    ∧ ∃ a b, (handleGenerate C isDemoMode script imageFile videoFile isHighQuality musicStyle s0).error
        = some (a ++ "Script Analysis" ++ b) := by
  have key : ∀ sR : RunState,
      (generatePreProductionAssets C isDemoMode script imageFile videoFile isHighQuality musicStyle sR).movieData
          = sR.movieData
      ∧ (generatePreProductionAssets C isDemoMode script imageFile videoFile isHighQuality musicStyle sR).appState
          = .ERROR
      ∧ (generatePreProductionAssets C isDemoMode script imageFile videoFile isHighQuality musicStyle sR).error
          = some ("Failure during Script Analysis. Details: " ++ e) := by
    intro sR
    cases isDemoMode <;> cases isHighQuality <;> cases href : referenceFileOf imageFile videoFile <;>
      refine ⟨?_, ?_, ?_⟩ <;>
        simp [generatePreProductionAssets, runBody, h, href, applyCatch, getStageFriendlyName, addLog]
  obtain ⟨h1, h2, h3⟩ := key { s0 with appState := .PROCESSING
                                       processingStage := .ANALYZING_SCRIPT
                                       movieData := none
                                       processingLog := []
                                       error := none
                                       sceneSuggestions := [] }
  refine ⟨h1, h2, h3, "Failure during ", ". Details: " ++ e, ?_⟩
  have hs : "Failure during " ++ "Script Analysis" ++ (". Details: " ++ e)
      = "Failure during Script Analysis. Details: " ++ e := by
    rw [← String.append_assoc]
    rfl
  exact h3.trans (congrArg some hs.symm)

/-- Whether `pat` occurs at the head of `l`. -/
def listBeginsWith : List Char → List Char → Bool
  | _, [] => true
  | [], _ :: _ => false
  | c :: cs, p :: ps => c == p && listBeginsWith cs ps

/-- Whether `pat` occurs anywhere in `l` (JS `String.prototype.includes`). -/
def listHasInfix (l pat : List Char) : Bool :=
  match l with
  | [] => pat.isEmpty
  | _ :: rest => listBeginsWith l pat || listHasInfix rest pat

/-- `script.toLowerCase().includes(sep)` of JS, on the underlying characters. -/
def lowerIncludes (s sep : String) : Bool :=
  listHasInfix (s.data.map Char.toLower) sep.data

/-- From src/services/geminiService.ts lines 257-259 and 326-330: the
analyzeScript rejection guards — the known-invalid-marker check on the
lowercased script before the AI call, and the no-characters/no-scenes check
on the parsed response (the AI response being a parameter; a response missing
the arrays is folded into the length-0 check). -/
def analyzeScriptGuarded (aiResponse : String → Except String ScriptAnalysis)
    (script : String) : Except String ScriptAnalysis :=
  if lowerIncludes script "error" then
    .error "Script contains invalid content."
  else
    match aiResponse script with
    | .error e => .error e
    | .ok analysis =>
      if analysis.characters.length = 0 ∨ analysis.scenes.length = 0 then
        .error "AI could not identify characters and scenes. Please check the script format."
      else
        .ok analysis

/-- Collaborators whose analyzer applies the real rejection guards, the rest
succeeding. -/
def collaboratorsInvalidW : Collaborators :=
  { analyzeScript := analyzeScriptGuarded
      (fun _ => .ok { title := "T", logline := "L", characters := [charA], scenes := [scene1] })
    analyzeImageStyle := fun _ => .ok "style"
    generateSceneSuggestions := fun _ _ => []
    matchVoiceActors := fun _ => []
    generateCharacterVoiceLine := fun _ => .ok "line"
    generateCharacterImage := fun _ _ _ => .ok "img"
    generateStoryboardVideo := fun _ _ _ => .ok "vid" }

theorem claim_C7_analyzer_rejection_witness :
    collaboratorsInvalidW.analyzeScript "An ERROR occurs" = .error "Script contains invalid content."
    ∧ (handleGenerate collaboratorsInvalidW false "An ERROR occurs" none none false "Cinematic"
        initialRunState).movieData = none
    ∧ (handleGenerate collaboratorsInvalidW false "An ERROR occurs" none none false "Cinematic"
        initialRunState).appState = .ERROR
    ∧ (handleGenerate collaboratorsInvalidW false "An ERROR occurs" none none false "Cinematic"
        initialRunState).error
        = some "Failure during Script Analysis. Details: Script contains invalid content." := by
  have hguard : collaboratorsInvalidW.analyzeScript "An ERROR occurs"
      = .error "Script contains invalid content." := by rfl
  have h := claim_C7_analyzer_rejection collaboratorsInvalidW false "An ERROR occurs" none none
    false "Cinematic" initialRunState "Script contains invalid content." hguard
  exact ⟨hguard, h.1, h.2.1, h.2.2.1⟩

def imageOnlyFileW : JsFile := { type := "image/png", dataBase64 := "IMGDATA" }

/-- Collaborators for the style-stage run: the style analyzer would succeed
with a concrete style, everything else succeeds. -/
def collaboratorsStyleW : Collaborators :=
  { analyzeScript := fun _ => .ok { title := "T", logline := "L", characters := [charA], scenes := [scene1] }
    analyzeImageStyle := fun _ => .ok "vibrant cartoon"
    generateSceneSuggestions := fun _ _ => []
    matchVoiceActors := fun _ => []
    generateCharacterVoiceLine := fun _ => .ok "line"
    generateCharacterImage := fun _ _ _ => .ok "img"
    generateStoryboardVideo := fun _ _ _ => .ok "vid" }

/-- C4, evaluated at the failing input (an image supplied, no video file):
the reference expression of line 205 evaluates to the absent video file, so
the style stage runs on nothing — no style log line, stylePrompt and
inspiration reference left unset, hasVisualReference false — even though an
image reference is present and the style collaborator would have succeeded;
the run still completes to REVIEW. -/
theorem claim_C4_failing_input_eval :
    referenceFileOf (some imageOnlyFileW) none = none
    ∧ (handleGenerate collaboratorsStyleW false "script" (some imageOnlyFileW) none false
        "Cinematic" initialRunState).appState = .REVIEW
    ∧ (handleGenerate collaboratorsStyleW false "script" (some imageOnlyFileW) none false
        "Cinematic" initialRunState).hasVisualReference = false
    ∧ ((handleGenerate collaboratorsStyleW false "script" (some imageOnlyFileW) none false
        "Cinematic" initialRunState).movieData.map Movie.stylePrompt) = some none
    ∧ ((handleGenerate collaboratorsStyleW false "script" (some imageOnlyFileW) none false
        "Cinematic" initialRunState).movieData.map Movie.inspirationImagePart) = some none
    ∧ ¬ ("🎨 Visual style identified: \"vibrant cartoon\""
        ∈ (handleGenerate collaboratorsStyleW false "script" (some imageOnlyFileW) none false
            "Cinematic" initialRunState).processingLog) := by
  refine ⟨rfl, ?_, ?_, ?_, ?_, ?_⟩ <;> decide

theorem generateLines_congr (gen gen2 : Character → Except String String) (l : List Character)
    (h : ∀ c ∈ l, gen c = gen2 c) : generateLines gen l = generateLines gen2 l := by
  induction l with
  | nil => rfl
  | cons c rest ih =>
    simp only [generateLines]
    rw [h c (List.mem_cons_self c rest), ih (fun x hx => h x (List.mem_cons_of_mem c hx))]

theorem generateLines_mem (gen : Character → Except String String) (l : List Character)
    (r : List Character × List String) (h : generateLines gen l = .ok r) :
    ∀ x ∈ r.1, ∃ c0 ∈ l, ∃ line, x = { c0 with voiceLine := some line } := by
  induction l generalizing r with
  | nil =>
    simp only [generateLines, Except.ok.injEq] at h
    subst h
    simp
  | cons c rest ih =>
    simp only [generateLines] at h
    cases hg : gen c with
    | error e =>
      rw [hg] at h
      simp at h
    | ok line =>
      rw [hg] at h
      cases hr : generateLines gen rest with
      | error e =>
        rw [hr] at h
        simp at h
      | ok r0 =>
        rw [hr] at h
        simp only [Except.ok.injEq] at h
        subst h
        intro x hx
        cases List.mem_cons.mp hx with
        | inl hx1 => exact ⟨c, List.mem_cons_self c rest, line, hx1⟩
        | inr hx2 =>
          obtain ⟨c0, hc0, line0, heq⟩ := ih r0 hr x hx2
          exact ⟨c0, List.mem_cons_of_mem c hc0, line0, heq⟩

/-- C9: the voice-line stage consults the collaborator only on characters
holding a voice actor (its result is invariant under changing the
collaborator elsewhere), and re-associates results by id: under unique ids
every character keeps its position, identity and non-voiceLine fields, and a
character with no voiceActor is preserved as exactly the same record. -/
theorem claim_C9_voice_lines_by_id (gen gen2 : Character → Except String String)
    (chars : List Character) (hnd : (chars.map Character.id).Nodup) :
    ((∀ c ∈ chars, c.voiceActor.isSome = true → gen c = gen2 c) →
        voiceStageCharacters gen chars = voiceStageCharacters gen2 chars)
    ∧ (∀ cs, voiceStageCharacters gen chars = .ok cs →
        cs.length = chars.length
        ∧ (∀ i : Nat, ∀ c : Character, chars[i]? = some c →
            ∃ c', cs[i]? = some c'
              ∧ c'.id = c.id ∧ c'.name = c.name ∧ c'.description = c.description
              ∧ c'.imageUrl = c.imageUrl ∧ c'.voiceActor = c.voiceActor
              ∧ (c.voiceActor = none → c' = c))) := by
  constructor
  · intro hag
    unfold voiceStageCharacters
    rw [generateLines_congr gen gen2 _
      (fun c hc => hag c (List.mem_filter.mp hc).1 (List.mem_filter.mp hc).2)]
  · intro cs hcs
    unfold voiceStageCharacters at hcs
    cases hgl : generateLines gen (chars.filter (fun c => c.voiceActor.isSome)) with
    | error e =>
      rw [hgl] at hcs
      simp at hcs
    | ok r =>
      rw [hgl] at hcs
      simp only [Except.ok.injEq] at hcs
      subst hcs
      constructor
      · simp [reassociateById]
      · intro i c hci
        refine ⟨(r.1.find? (fun u => u.id = c.id)).getD c, ?_, ?_⟩
        · simp [reassociateById, hci]
        · cases hf : r.1.find? (fun u => u.id = c.id) with
          | none =>
            exact ⟨rfl, rfl, rfl, rfl, rfl, fun _ => rfl⟩
          | some x =>
            have hxid : x.id = c.id := by
              have h1 := List.find?_some hf
              simpa using h1
            have hxmem : x ∈ r.1 := List.mem_of_find?_eq_some hf
            obtain ⟨c0, hc0f, line, hxeq⟩ := generateLines_mem gen _ r hgl x hxmem
            obtain ⟨hc0mem, hc0act⟩ := List.mem_filter.mp hc0f
            have hcmem : c ∈ chars := List.getElem?_mem hci
            have hc0id : c0.id = c.id := by
              rw [← hxid, hxeq]
            have hc0c : c0 = c := key_nodup_inj Character.id hnd c0 hc0mem c hcmem hc0id
            subst hxeq
            subst hc0c
            refine ⟨rfl, rfl, rfl, rfl, rfl, ?_⟩
            intro hnone
            rw [hnone] at hc0act
            simp at hc0act

def actorC : VoiceActor := { name := "ActC", vocalStyle := "calm" }

def charC : Character :=
  { id := "c", name := "Cee", description := "dc", imageUrl := "",
    voiceActor := some actorC, voiceLine := none }

def charD : Character :=
  { id := "d", name := "Dee", description := "dd", imageUrl := "",
    voiceActor := none, voiceLine := none }

def genLineW : Character → Except String String := fun c => .ok ("line for " ++ c.name)

theorem claim_C9_voice_lines_by_id_witness :
    voiceStageCharacters genLineW [charC, charD]
        = .ok [{ charC with voiceLine := some "line for Cee" }, charD]
    ∧ ∃ c', ([{ charC with voiceLine := some "line for Cee" }, charD] : List Character)[1]? = some c'
        ∧ c'.id = charD.id ∧ c'.name = charD.name ∧ c'.description = charD.description
        ∧ c'.imageUrl = charD.imageUrl ∧ c'.voiceActor = charD.voiceActor
        ∧ (charD.voiceActor = none → c' = charD) := by
  have hok : voiceStageCharacters genLineW [charC, charD]
      = .ok [{ charC with voiceLine := some "line for Cee" }, charD] := by rfl
  refine ⟨hok, ?_⟩
  exact ((claim_C9_voice_lines_by_id genLineW genLineW [charC, charD] (by decide)).2
    _ hok).2 1 charD (by decide)

theorem generateVisuals_length (genImg : String → Option String → QualityMode → Except String String)
    (sp : Option String) (q : QualityMode) (l : List Character) :
    (generateVisuals genImg sp q l).1.length = l.length := by
  induction l with
  | nil => rfl
  | cons c rest ih =>
    simp only [generateVisuals]
    cases hg : genImg c.description sp q <;> simp [hg, ih]

theorem generateVisuals_getElem? (genImg : String → Option String → QualityMode → Except String String)
    (sp : Option String) (q : QualityMode) (l : List Character) (i : Nat) :
    (generateVisuals genImg sp q l).1[i]? = (l[i]?).map (fun char =>
      match genImg char.description sp q with
      | .ok url => { char with imageUrl := url }
      | .error _ => char) := by
  induction l generalizing i with
  | nil => simp [generateVisuals]
  | cons c rest ih =>
    cases i with
    | zero =>
      simp only [generateVisuals]
      cases hg : genImg c.description sp q <;> simp [hg]
    | succ j =>
      simp only [generateVisuals]
      cases hg : genImg c.description sp q <;>
        simp [hg, List.getElem?_cons_succ, ih]

/-- C8: in the character-visuals stage each character's outcome is exactly its
own collaborator call — an earlier character's failure cannot affect a later
character, which is still attempted and may succeed; a failed character is
kept without a new image; and the stage never rejects: whatever the image
collaborator does, the visuals stage runs on to storyboard generation and the
run reaches REVIEW. -/
theorem claim_C8_visual_failures_isolated
    (genImg : String → Option String → QualityMode → Except String String)
    (sp : Option String) (q : QualityMode) (chars : List Character) :
    ((generateVisuals genImg sp q chars).1.length = chars.length)
    ∧ (∀ i : Nat, ∀ c : Character, chars[i]? = some c →
        (∀ url, genImg c.description sp q = .ok url →
            (generateVisuals genImg sp q chars).1[i]? = some { c with imageUrl := url })
        ∧ (∀ e, genImg c.description sp q = .error e →
            (generateVisuals genImg sp q chars).1[i]? = some c))
    ∧ (∀ C : Collaborators, ∀ movie : Movie, ∀ s : RunState,
        ∃ s', runVisualsStage C movie sp q s = .ok s'
          ∧ s'.appState = .REVIEW
          ∧ ∃ mv, s'.movieData = some mv
              ∧ mv.characters = (generateVisuals C.generateCharacterImage sp q movie.characters).1) := by
  refine ⟨generateVisuals_length genImg sp q chars, ?_, ?_⟩
  · intro i c hci
    constructor
    · intro url hok
      rw [generateVisuals_getElem?, hci, Option.map_some', hok]
    · intro e herr
      rw [generateVisuals_getElem?, hci, Option.map_some', herr]
  · intro C movie s
    exact ⟨_, rfl, rfl, _, rfl, rfl⟩

def genImgMixW : String → Option String → QualityMode → Except String String :=
  fun d _ _ => if d = "pilot" then .error "img fail" else .ok ("img " ++ d)

theorem claim_C8_visual_failures_isolated_witness :
    genImgMixW charA.description none QualityMode.standard = .error "img fail"
    ∧ (generateVisuals genImgMixW none .standard [charA, charB]).1[0]? = some charA
    ∧ (generateVisuals genImgMixW none .standard [charA, charB]).1[1]?
        = some { charB with imageUrl := "img botanist" } := by
  refine ⟨by rfl, ?_, ?_⟩
  · exact ((claim_C8_visual_failures_isolated genImgMixW none .standard [charA, charB]).2.1
      0 charA (by decide)).2 "img fail" (by rfl)
  · exact ((claim_C8_visual_failures_isolated genImgMixW none .standard [charA, charB]).2.1
      1 charB (by decide)).1 "img botanist" (by rfl)

theorem generateLines_isError (gen : Character → Except String String) (l : List Character)
    (c : Character) (hc : c ∈ l) (e : String) (he : gen c = .error e) :
    ∃ e', generateLines gen l = .error e' := by
  induction l with
  | nil => cases hc
  | cons a rest ih =>
    cases List.mem_cons.mp hc with
    | inl hca =>
      subst hca
      exact ⟨e, by simp [generateLines, he]⟩
    | inr hcr =>
      cases hg : gen a with
      | error ea => exact ⟨ea, by simp [generateLines, hg]⟩
      | ok line =>
        obtain ⟨e', hrest⟩ := ih hcr
        exact ⟨e', by simp [generateLines, hg, hrest]⟩

theorem runVoiceLineStage_error (C : Collaborators) (movie : Movie) (sp : Option String)
    (q : QualityMode) (s : RunState) (c : Character) (hc : c ∈ movie.characters)
    (hcast : c.voiceActor.isSome = true) (e : String)
    (he : C.generateCharacterVoiceLine c = .error e) :
    ∃ s' e', runVoiceLineStage C movie sp q s = .error (s', e')
      ∧ s'.processingStage = .GENERATING_VOICE_CLIPS := by
  have hmemf : c ∈ movie.characters.filter (fun x => x.voiceActor.isSome) :=
    List.mem_filter.mpr ⟨hc, hcast⟩
  have hlen : 0 < (movie.characters.filter (fun x => x.voiceActor.isSome)).length :=
    List.length_pos_of_mem hmemf
  obtain ⟨e', hge⟩ := generateLines_isError C.generateCharacterVoiceLine _ c hmemf e he
  refine ⟨addLog { s with processingStage := .GENERATING_VOICE_CLIPS }
    "🗣️ Generating character voice lines...", e', ?_, rfl⟩
  simp only [runVoiceLineStage, if_pos hlen, hge]

/-- From src/unnamed/part_000 lines 238-248: the character list after the
casting stage (enriched when the casting map is non-empty, unchanged
otherwise). -/
def charactersAfterCasting (C : Collaborators) (chars : List Character) : List Character :=
  if 0 < (C.matchVoiceActors chars).length then
    (applyCasting (C.matchVoiceActors chars) chars).1
  else chars

theorem runCastingStage_error_voice (C : Collaborators) (movie : Movie) (sp : Option String)
    (q : QualityMode) (s : RunState) (c : Character)
    (hc : c ∈ charactersAfterCasting C movie.characters)
    (hcast : c.voiceActor.isSome = true) (e : String)
    (he : C.generateCharacterVoiceLine c = .error e) :
    ∃ s' e', runCastingStage C movie sp q s = .error (s', e')
      ∧ s'.processingStage = .GENERATING_VOICE_CLIPS := by
  unfold charactersAfterCasting at hc
  by_cases h : 0 < (C.matchVoiceActors movie.characters).length
  · rw [if_pos h] at hc
    simp only [runCastingStage, if_pos h]
    exact runVoiceLineStage_error C _ sp q _ c hc hcast e he
  · rw [if_neg h] at hc
    simp only [runCastingStage, if_neg h]
    exact runVoiceLineStage_error C _ sp q _ c hc hcast e he

theorem runAfterAnalysis_error_voice (C : Collaborators) (analysis : ScriptAnalysis)
    (script musicStyle : String) (ip : Option ImagePart) (sp : Option String)
    (q : QualityMode) (s : RunState) (c : Character)
    (hc : c ∈ charactersAfterCasting C analysis.characters)
    (hcast : c.voiceActor.isSome = true) (e : String)
    (he : C.generateCharacterVoiceLine c = .error e) :
    ∃ s' e', runAfterAnalysis C analysis script musicStyle ip sp q s = .error (s', e')
      ∧ s'.processingStage = .GENERATING_VOICE_CLIPS := by
  simp only [runAfterAnalysis]
  exact runCastingStage_error_voice C _ sp q _ c hc hcast e he

theorem runBody_error_voice (C : Collaborators) (isDemoMode : Bool) (script : String)
    (imageFile videoFile : Option JsFile) (isHighQuality : Bool) (musicStyle : String)
    (s : RunState) (analysis : ScriptAnalysis)
    (hana : C.analyzeScript script = .ok analysis)
    (hstyle : ∀ p, ∃ stylePrompt, C.analyzeImageStyle p = .ok stylePrompt)
    (c : Character) (hc : c ∈ charactersAfterCasting C analysis.characters)
    (hcast : c.voiceActor.isSome = true) (e : String)
    (he : C.generateCharacterVoiceLine c = .error e) :
    ∃ s' e', runBody C isDemoMode script imageFile videoFile isHighQuality musicStyle s
        = .error (s', e')
      ∧ s'.processingStage = .GENERATING_VOICE_CLIPS := by
  simp only [runBody, hana]
  cases href : referenceFileOf imageFile videoFile with
  | none =>
    simp only [href]
    exact runAfterAnalysis_error_voice C analysis script musicStyle none none _ _ c hc hcast e he
  | some rf =>
    obtain ⟨sp0, hsp⟩ := hstyle (fileToImagePart rf)
    simp only [href, hsp, Option.isSome_some, if_true]
    exact runAfterAnalysis_error_voice C analysis script musicStyle _ _ _ _ c hc hcast e he

/-- C3 amended: a voice-line collaborator failure for any character that
holds a voice actor after casting rejects the whole stage fan-out; the
rejection escapes to the top-level handler, the run aborts, and the run
status becomes ERROR with a message naming the Voice Clip Generation stage
(so the other characters' lines are discarded with it). -/
theorem claim_C3_voice_failure_aborts_run (C : Collaborators) (isDemoMode : Bool)
    (script : String) (imageFile videoFile : Option JsFile) (isHighQuality : Bool)
    (musicStyle : String) (s0 : RunState) (analysis : ScriptAnalysis)
    (hana : C.analyzeScript script = .ok analysis)
    (hstyle : ∀ p, ∃ stylePrompt, C.analyzeImageStyle p = .ok stylePrompt)
    (c : Character) (hc : c ∈ charactersAfterCasting C analysis.characters)
    (hcast : c.voiceActor.isSome = true) (e : String)
    (he : C.generateCharacterVoiceLine c = .error e) :
    (handleGenerate C isDemoMode script imageFile videoFile isHighQuality musicStyle s0).appState
        = .ERROR
    ∧ ∃ e', (handleGenerate C isDemoMode script imageFile videoFile isHighQuality musicStyle s0).error
        = some ("Failure during Voice Clip Generation. Details: " ++ e') := by
  have key : ∀ sR : RunState,
      (generatePreProductionAssets C isDemoMode script imageFile videoFile isHighQuality musicStyle sR).appState
          = .ERROR
      ∧ ∃ e', (generatePreProductionAssets C isDemoMode script imageFile videoFile isHighQuality musicStyle sR).error
          = some ("Failure during Voice Clip Generation. Details: " ++ e') := by
    intro sR
    obtain ⟨s', e', hrb, hstage⟩ := runBody_error_voice C isDemoMode script imageFile videoFile
      isHighQuality musicStyle sR analysis hana hstyle c hc hcast e he
    unfold generatePreProductionAssets
    rw [hrb]
    constructor
    · rfl
    · refine ⟨e', ?_⟩
      have h1 : (applyCatch (Except.error (s', e'))).error
          = some ("Failure during " ++ getStageFriendlyName s'.processingStage
              ++ ". Details: " ++ e') := rfl
      rw [h1, hstage]
      rfl
  exact key { s0 with appState := .PROCESSING
                      processingStage := .ANALYZING_SCRIPT
                      movieData := none
                      processingLog := []
                      error := none
                      sceneSuggestions := [] }

def actorKael : VoiceActor := { name := "ActA", vocalStyle := "calm" }
def actorZora : VoiceActor := { name := "ActB", vocalStyle := "bold" }

/-- Collaborators for which everything succeeds except the voice line of the
character with id "a"; in particular the other character's voice-line call
succeeds on its own. -/
def collaboratorsVoiceFailW : Collaborators :=
  { analyzeScript := fun _ =>
      .ok { title := "T", logline := "L", characters := [charA, charB], scenes := [scene1] }
    analyzeImageStyle := fun _ => .ok "style"
    generateSceneSuggestions := fun _ _ => []
    matchVoiceActors := fun _ => [("Kael", actorKael), ("Zora", actorZora)]
    generateCharacterVoiceLine := fun c => if c.id = "a" then .error "voice boom" else .ok "hi"
    generateCharacterImage := fun _ _ _ => .ok "img"
    generateStoryboardVideo := fun _ _ _ => .ok "vid" }

/-- C3 counterexample: in a run where the only failing collaborator call is
one character's voice line (the other character's call succeeds), the run
aborts during the voice-line stage: status becomes ERROR with a Voice Clip
Generation failure message, and no character — including the unaffected one —
receives a voice line. -/
theorem claim_C3_counterexample :
    collaboratorsVoiceFailW.generateCharacterVoiceLine { charB with voiceActor := some actorZora }
        = .ok "hi"
    ∧ (handleGenerate collaboratorsVoiceFailW false "script" none none false "Cinematic"
        initialRunState).appState = .ERROR
    ∧ (handleGenerate collaboratorsVoiceFailW false "script" none none false "Cinematic"
        initialRunState).error
        = some "Failure during Voice Clip Generation. Details: voice boom"
    ∧ ((handleGenerate collaboratorsVoiceFailW false "script" none none false "Cinematic"
        initialRunState).movieData.map (fun mv => mv.characters.map Character.voiceLine))
        = some [none, none] := by
  refine ⟨by rfl, ?_, ?_, ?_⟩ <;> decide

theorem claim_C3_voice_failure_aborts_run_witness :
    (handleGenerate collaboratorsVoiceFailW false "script" none none false "Cinematic"
        initialRunState).appState = .ERROR
    ∧ ∃ e', (handleGenerate collaboratorsVoiceFailW false "script" none none false "Cinematic"
        initialRunState).error
        = some ("Failure during Voice Clip Generation. Details: " ++ e') :=
  claim_C3_voice_failure_aborts_run collaboratorsVoiceFailW false "script" none none false
    "Cinematic" initialRunState
    { title := "T", logline := "L", characters := [charA, charB], scenes := [scene1] }
    rfl (fun p => ⟨"style", rfl⟩)
    { charA with voiceActor := some actorKael }
    (by decide) (by decide) "voice boom" (by rfl)
